import Mathlib

/-
Verification development for the risk-scoring and route-segmentation
pipeline of accident-route-advisor (src/app.py).

The geometry engine works on real-valued coordinates; the scoring and
aggregation logic works on natural-number scores and string tags, as in
the source.  Parts of the classifier that the repository keeps in its
second inline variant (the blackspot / congestion draws and the
"Safe Route" placeholder, whose hazard keys and random import appear in
src/app.py but whose implementing lines do not) are modelled from the
spec and marked as such in their doc comments.
-/

set_option maxHeartbeats 1000000

namespace RouteAdvisor

/-- Planar point, as the (x, y) coordinate pairs of `geometry.coords`. -/
abbrev Pt : Type := ℝ × ℝ

/-- Componentwise vector difference `a - b`, as in `p2 - p1` (app.py line 200). -/
def vsub (a b : Pt) : Pt := (a.1 - b.1, a.2 - b.2)

/-- Dot product `np.dot(v1, v2)` (app.py line 203). -/
def dotP (v w : Pt) : ℝ := v.1 * w.1 + v.2 * w.2

/-- Euclidean magnitude `np.linalg.norm` (app.py line 201). -/
noncomputable def normP (v : Pt) : ℝ := Real.sqrt (v.1 ^ 2 + v.2 ^ 2)

/-- Clamp to [-1, 1], as `np.clip(x, -1.0, 1.0)` (app.py line 203). -/
def clip (x : ℝ) : ℝ := min 1 (max (-1) x)

/-- Angle contribution of one consecutive point triple, in degrees
(app.py lines 199-204): skipped (0) when either difference vector has
zero magnitude, otherwise `degrees(arccos(clip(dot/(n1*n2))))`. -/
noncomputable def angleDeg (p1 p2 p3 : Pt) : ℝ :=
  if 0 < normP (vsub p2 p1) ∧ 0 < normP (vsub p3 p2) then
    Real.arccos (clip (dotP (vsub p2 p1) (vsub p3 p2) /
      (normP (vsub p2 p1) * normP (vsub p3 p2)))) * (180 / Real.pi)
  else 0

/-- Running total of the triple angles over the coordinate list, the loop
of app.py lines 197-204. -/
noncomputable def totalTurn : List Pt → ℝ
  | p1 :: p2 :: p3 :: rest => angleDeg p1 p2 p3 + totalTurn (p2 :: p3 :: rest)
  | _ => 0

/-- `calculate_curvature` (app.py lines 193-205): 0 for an absent geometry
or fewer than 3 coordinates, otherwise the summed triple angles. -/
noncomputable def calculate_curvature (geometry : Option (List Pt)) : ℝ :=
  match geometry with
  | none => 0
  | some coords => if coords.length < 3 then 0 else totalTurn coords

/-- Value of `totalTurn` on a cons, split into the head triple term and the
recursive total of the tail. -/
noncomputable def headTurn (x : Pt) : List Pt → ℝ
  | p2 :: p3 :: _ => angleDeg x p2 p3
  | _ => 0

/-- OpenStreetMap tag value that is either a plain string or a list of
strings; the source takes the first element of a list
(`if isinstance(x, list): x = x[0]`, app.py lines 147 and 154; OSM multi
values are nonempty, so the list form keeps an explicit head). -/
inductive StrOrList where
  | single (s : String)
  | multiple (hd : String) (tl : List String)
deriving DecidableEq

/-- First-or-self accessor for a tag value (app.py lines 147 and 154). -/
def firstTag : StrOrList → String
  | .single s => s
  | .multiple hd _ => hd

/-- Per-edge attributes consumed by the risk logic: `data["geometry"]`,
`data.get("lanes", "2")`, `data.get("highway", "")` (app.py lines 126,
137, 146, 153); a `none` field means the key is absent. -/
structure EdgeData where
  geometry : Option (List Pt)
  lanes : Option StrOrList
  highway : Option StrOrList

/-- Outcome of classifying one edge: numeric score, reason list, risk
tier and display color (app.py lines 133-168). -/
structure Classified where
  risk : ℕ
  reasons : List String
  tier : String
  color : String
deriving DecidableEq

/-- Tier and color from the numeric score, app.py lines 166-168:
strict comparisons, `risk > 50` High, `risk > 20` Moderate, else Low. -/
def riskLevel (s : ℕ) : String × String :=
  if s > 50 then ("High", "#E11B23")
  else if s > 20 then ("Moderate", "#F5A623")
  else ("Low", "#20BD5F")

/-- Curvature contribution, app.py lines 137-143: `curve > 45` adds 30
and "Sharp Curve", else `curve > 20` adds 10 and "Winding Road". -/
noncomputable def curveContrib (g : Option (List Pt)) : ℕ × List String :=
  if calculate_curvature g > 45 then (30, ["Sharp Curve"])
  else if calculate_curvature g > 20 then (10, ["Winding Road"])
  else (0, [])

/-- Decimal digit test on a character code (48-57). -/
def isDigitCh (c : Char) : Bool := 48 ≤ c.toNat && c.toNat ≤ 57

/-- Accumulating decimal parse of a digit list; any non-digit fails. -/
def parseDigits (acc : ℕ) : List Char → Option ℕ
  | [] => some acc
  | c :: cs => if isDigitCh c then parseDigits (acc * 10 + (c.toNat - 48)) cs else none

/-- Decimal parse requiring at least one character. -/
def parseNat : List Char → Option ℕ
  | [] => none
  | cs => parseDigits 0 cs

/-- Python `int()` on a tag string (app.py line 149): an optional sign
followed by decimal digits; anything else fails.  (`int()` additionally
strips whitespace and allows underscores between digits; OSM lane tags
contain neither.) -/
def parseIntStr (s : String) : Option ℤ :=
  match s.data with
  | '-' :: rest => (parseNat rest).map (fun n => -(n : ℤ))
  | '+' :: rest => (parseNat rest).map (fun n => (n : ℤ))
  | cs => (parseNat cs).map (fun n => (n : ℤ))

/-- Lane contribution, app.py lines 146-151: parse the lane tag as an
integer (`int(lanes)`); on success with value ≤ 1 add 20 and
"Narrow Road"; a parse failure is silently skipped (`except: pass`). -/
def lanesContrib (lanes : Option StrOrList) : ℕ × List String :=
  match parseIntStr (firstTag (lanes.getD (.single "2"))) with
  | some n => if n ≤ 1 then (20, ["Narrow Road"]) else (0, [])
  | none => (0, [])

/-- Road-class contribution, app.py lines 153-158: trunk/primary/motorway
adds 10 and "High Speed Zone", else track/unclassified/service adds 15
and "Poor Lighting". -/
def highwayContrib (hw : Option StrOrList) : ℕ × List String :=
  let h := firstTag (hw.getD (.single ""))
  if h = "trunk" ∨ h = "primary" ∨ h = "motorway" then (10, ["High Speed Zone"])
  else if h = "track" ∨ h = "unclassified" ∨ h = "service" then (15, ["Poor Lighting"])
  else (0, [])

/-- Visibility contribution, app.py lines 161-163: a positive `cv_score`
is added to the risk together with reason "Bad Visibility". -/
def cvContrib (cv : ℕ) : ℕ × List String :=
  if cv > 0 then (cv, ["Bad Visibility"]) else (0, [])

/-- The per-edge risk classification of app.py lines 132-168: the four
contributions accumulate into `risk` and `reasons` in source order, and
the tier and color come from `riskLevel`. -/
noncomputable def classifyEdge (e : EdgeData) (cv : ℕ) : Classified :=
  let c := curveContrib e.geometry
  let l := lanesContrib e.lanes
  let h := highwayContrib e.highway
  let v := cvContrib cv
  let risk := c.1 + l.1 + h.1 + v.1
  let tc := riskLevel risk
  ⟨risk, c.2 ++ l.2 ++ h.2 ++ v.2, tc.1, tc.2⟩

/-- Modelled from the spec: the lane step of the second inline
classifier variant of the repository (spec §4.3 step 2), whose implementing lines
are not under src/ (src/app.py only declares the "Traffic Congestion"
hazard key and imports random).  As the lane step of `lanesContrib`, but
inside the lanes ≤ 1 branch one pseudo-random draw `d1` in [0,1) is made
and a draw > 0.7 appends "Traffic Congestion" with no extra score. -/
def lanesContribFull (lanes : Option StrOrList) (d1 : ℚ) : ℕ × List String :=
  match parseIntStr (firstTag (lanes.getD (.single "2"))) with
  | some n =>
    if n ≤ 1 then
      (20, "Narrow Road" :: (if d1 > 7/10 then ["Traffic Congestion"] else []))
    else (0, [])
  | none => (0, [])

/-- Modelled from the spec: the blackspot step of the second inline
classifier variant of the repository (spec §4.3 step 3), whose implementing lines
are not under src/.  If the running score so far `s` is > 20, a
pseudo-random draw `d2` in [0,1) is made; a draw > 0.8 adds 40 and
reason "Known Blackspot". -/
def blackspotContrib (s : ℕ) (d2 : ℚ) : ℕ × List String :=
  if s > 20 then (if d2 > 4/5 then (40, ["Known Blackspot"]) else (0, []))
  else (0, [])

/-- Modelled from the spec: running score after the curvature and lane
steps, the score the blackspot eligibility test reads (spec §4.3). -/
noncomputable def scoreAfterLanes (e : EdgeData) (d1 : ℚ) : ℕ :=
  (curveContrib e.geometry).1 + (lanesContribFull e.lanes d1).1

/-- Modelled from the spec: total numeric score of the full classifier
variant (spec §4.3, steps 1-5 additive). -/
noncomputable def fullScore (e : EdgeData) (cv : ℕ) (d1 d2 : ℚ) : ℕ :=
  scoreAfterLanes e d1 + (blackspotContrib (scoreAfterLanes e d1) d2).1 +
    (highwayContrib e.highway).1 + (cvContrib cv).1

/-- Modelled from the spec: accumulated reason list of the full
classifier variant, in step order (spec §4.3). -/
noncomputable def fullReasons (e : EdgeData) (cv : ℕ) (d1 d2 : ℚ) : List String :=
  (curveContrib e.geometry).2 ++ (lanesContribFull e.lanes d1).2 ++
    (blackspotContrib (scoreAfterLanes e d1) d2).2 ++
    (highwayContrib e.highway).2 ++ (cvContrib cv).2

/-- Modelled from the spec: the full classifier variant (spec §4.3).
After scoring, a Low tier with an empty accumulated reason list gets its
reasons replaced by exactly the singleton ["Safe Route"]. -/
noncomputable def classifyEdgeFull (e : EdgeData) (cv : ℕ) (d1 d2 : ℚ) : Classified :=
  if (riskLevel (fullScore e cv d1 d2)).1 = "Low" ∧ fullReasons e cv d1 d2 = [] then
    ⟨fullScore e cv d1 d2, ["Safe Route"],
      (riskLevel (fullScore e cv d1 d2)).1, (riskLevel (fullScore e cv d1 d2)).2⟩
  else
    ⟨fullScore e cv d1 d2, fullReasons e cv d1 d2,
      (riskLevel (fullScore e cv d1 d2)).1, (riskLevel (fullScore e cv d1 d2)).2⟩

/-- The fixed eight hazard keys of the `hazards` dictionary, app.py
line 119. -/
def hazardKeys : List String :=
  ["Sharp Curve", "Poor Lighting", "Narrow Road", "Traffic Congestion",
   "Bad Visibility", "Known Blackspot", "High Speed Zone", "Winding Road"]

/-- One hazard-count increment, app.py lines 171-172: a reason bumps its
entry only when it is one of the fixed keys (`if r in hazards`). -/
def hazardInc (hz : String → ℕ) (r : String) : String → ℕ :=
  if r ∈ hazardKeys then (fun k => if k = r then hz k + 1 else hz k) else hz

/-- The `for r in reasons` hazard-count loop, app.py lines 171-172. -/
def incHazards (rs : List String) (hz : String → ℕ) : String → ℕ :=
  rs.foldl hazardInc hz

/-- The `stats[r_level] += 1` update, app.py line 170. -/
def bumpTier (t : String) (st : String → ℕ) : String → ℕ :=
  fun k => if k = t then st k + 1 else st k

/-- One entry of the segments list, app.py line 174. -/
structure Segment where
  positions : List Pt
  color : String
  risk : String
  info : String

/-- Aggregated output of the segmentation loop, app.py lines 117-186:
segments plus the stats and hazards dictionaries (as count functions). -/
structure RouteSummary where
  segments : List Segment
  stats : String → ℕ
  hazards : String → ℕ

/-- Input of one loop iteration: the edge attributes together with the
two endpoint node coordinates used as the geometry fallback (app.py
lines 121-130). -/
structure EdgeInput where
  data : EdgeData
  uPos : Pt
  vPos : Pt

/-- Positions of a segment, app.py lines 126-130: the edge geometry with
each (x, y) pair swapped to (lat, lon), else the two node endpoints. -/
def segPositions (e : EdgeInput) : List Pt :=
  match e.data.geometry with
  | some g => g.map (fun p => (p.2, p.1))
  | none => [e.uPos, e.vPos]

/-- Body of one iteration of the segmentation loop, app.py lines 121-174. -/
noncomputable def stepRoute (cv : ℕ) (acc : RouteSummary) (e : EdgeInput) : RouteSummary :=
  let c := classifyEdge e.data cv
  { segments := acc.segments ++
      [⟨segPositions e, c.color, c.tier, String.intercalate ", " c.reasons⟩],
    stats := bumpTier c.tier acc.stats,
    hazards := incHazards c.reasons acc.hazards }

/-- The segmentation loop folded over the consecutive-pair edges. -/
noncomputable def routeFold (cv : ℕ) (edges : List EdgeInput) (acc : RouteSummary) : RouteSummary :=
  match edges with
  | [] => acc
  | e :: rest => routeFold cv rest (stepRoute cv acc e)

/-- The route segmentation of `get_route_api`, app.py lines 115-186:
start from empty segments and all-zero stats and hazards counts and run
the loop over the edge of every consecutive node pair. -/
noncomputable def segmentRoute (edges : List EdgeInput) (cv : ℕ) : RouteSummary :=
  routeFold cv edges ⟨[], fun _ => 0, fun _ => 0⟩

/-- Outcome classes of reading the test image in `analyze_image_cv`
(app.py lines 212-238): the file may be absent (line 216), `imread` may
return None (line 219), the cv2 import may fail (line 233), or the read
succeeds with `nonzero` edge pixels among `size` total pixels. -/
inductive ImageSource where
  | absent
  | unreadable
  | noLibrary
  | loaded (nonzero size : ℕ)

/-- Edge density in percent, `count_nonzero(edges) / edges.size * 100`
(app.py line 223). -/
def edgeDensity (nonzero size : ℕ) : ℚ :=
  ((nonzero : ℚ) / (size : ℚ)) * 100

/-- `analyze_image_cv` (app.py lines 208-238): every failure mode
returns 0; on a successful read the edge density thresholds give 20
(density > 5), 10 (density > 2) or 0 (lines 230-232). -/
def analyze_image_cv : ImageSource → ℕ
  | .absent => 0
  | .unreadable => 0
  | .noLibrary => 0
  | .loaded nz sz =>
    if edgeDensity nz sz > 5 then 20
    else if edgeDensity nz sz > 2 then 10
    else 0

/-- The single edge of the two-node end-to-end example: lanes "1",
highway "motorway", no geometry. -/
def exampleEdge : EdgeData :=
  { geometry := none, lanes := some (.single "1"), highway := some (.single "motorway") }

/-- A right-angle three-point polyline used to exercise the curvature
engine on a concrete geometry. -/
def rightAngle : List Pt := [(0, 0), (1, 0), (1, 1)]

/-- A plain residential two-lane edge with no geometry: no factor fires,
so the full classifier variant reaches tier Low with no reasons. -/
def safeEdge : EdgeData :=
  { geometry := none, lanes := some (.single "2"), highway := some (.single "residential") }

/-- A sharp-curve narrow edge: curvature 30 plus lanes 20 put the
running score at 50, making the blackspot draw eligible. -/
def blackEdge : EdgeData :=
  { geometry := some rightAngle, lanes := some (.single "1"), highway := none }

-- ------------------------------------------------------------------
-- Theorems
-- ------------------------------------------------------------------

theorem angleDeg_nonneg (p1 p2 p3 : Pt) : 0 ≤ angleDeg p1 p2 p3 := by
  unfold angleDeg
  split_ifs with h
  · exact mul_nonneg (Real.arccos_nonneg _) (by positivity)
  · exact le_refl 0

theorem totalTurn_nonneg : ∀ l : List Pt, 0 ≤ totalTurn l
  | [] => le_refl 0
  | [_] => le_refl 0
  | [_, _] => le_refl 0
  | p1 :: p2 :: p3 :: rest =>
    add_nonneg (angleDeg_nonneg p1 p2 p3) (totalTurn_nonneg (p2 :: p3 :: rest))

theorem calculate_curvature_nonneg (g : Option (List Pt)) :
    0 ≤ calculate_curvature g := by
  cases g with
  | none => exact le_refl 0
  | some coords =>
    show 0 ≤ if coords.length < 3 then (0 : ℝ) else totalTurn coords
    split_ifs with h
    · exact le_refl 0
    · exact totalTurn_nonneg coords

theorem totalTurn_short (l : List Pt) (h : l.length < 3) : totalTurn l = 0 := by
  match l with
  | [] => rfl
  | [_] => rfl
  | [_, _] => rfl
  | _ :: _ :: _ :: _ => simp at h; omega

theorem angleDeg_rev (p1 p2 p3 : Pt) : angleDeg p3 p2 p1 = angleDeg p1 p2 p3 := by
  have hn1 : normP (vsub p2 p3) = normP (vsub p3 p2) := by
    unfold normP vsub; ring_nf
  have hn2 : normP (vsub p1 p2) = normP (vsub p2 p1) := by
    unfold normP vsub; ring_nf
  have hd : dotP (vsub p2 p3) (vsub p1 p2) = dotP (vsub p2 p1) (vsub p3 p2) := by
    unfold dotP vsub; ring
  unfold angleDeg
  rw [hn1, hn2, hd]
  by_cases h : 0 < normP (vsub p2 p1) ∧ 0 < normP (vsub p3 p2)
  · rw [if_pos ⟨h.2, h.1⟩, if_pos h, mul_comm (normP (vsub p3 p2))]
  · rw [if_neg (fun hc => h ⟨hc.2, hc.1⟩), if_neg h]

theorem totalTurn_cons (x : Pt) (t : List Pt) :
    totalTurn (x :: t) = headTurn x t + totalTurn t := by
  match t with
  | [] => show (0 : ℝ) = 0 + 0; ring
  | [a] => show (0 : ℝ) = 0 + 0; ring
  | a :: b :: r => rfl

theorem headTurn_append_pair (x a b : Pt) (xs r s : List Pt) :
    headTurn x (xs ++ a :: b :: r) = headTurn x (xs ++ a :: b :: s) := by
  match xs with
  | [] => rfl
  | [c] => rfl
  | c :: d :: _ => rfl

theorem totalTurn_append3 (xs : List Pt) (a b y : Pt) :
    totalTurn (xs ++ [a, b, y]) = totalTurn (xs ++ [a, b]) + angleDeg a b y := by
  induction xs with
  | nil =>
    show totalTurn [a, b, y] = totalTurn [a, b] + angleDeg a b y
    rw [show totalTurn [a, b, y] = angleDeg a b y + totalTurn [b, y] from rfl]
    rw [totalTurn_short [b, y] (by simp), totalTurn_short [a, b] (by simp)]
    ring
  | cons x xs ih =>
    rw [List.cons_append, totalTurn_cons, List.cons_append, totalTurn_cons, ih,
      headTurn_append_pair x a b xs [y] []]
    ring

theorem totalTurn_reverse (l : List Pt) : totalTurn l.reverse = totalTurn l := by
  induction l with
  | nil => rfl
  | cons p1 t ih =>
    cases t with
    | nil => rfl
    | cons p2 t2 =>
      cases t2 with
      | nil => rfl
      | cons p3 rest =>
        have hrev : (p1 :: p2 :: p3 :: rest).reverse =
            rest.reverse ++ [p3, p2, p1] := by
          simp
        have hrev2 : rest.reverse ++ [p3, p2] = (p2 :: p3 :: rest).reverse := by
          simp
        rw [hrev, totalTurn_append3, hrev2, ih, angleDeg_rev p1 p2 p3]
        rw [show totalTurn (p1 :: p2 :: p3 :: rest) =
          angleDeg p1 p2 p3 + totalTurn (p2 :: p3 :: rest) from rfl]
        ring

/-- C9: for every polyline, `calculate_curvature` of the reversed point
list equals `calculate_curvature` of the original list: the total
turning magnitude is invariant under reversal because the angle between
consecutive difference vectors is unsigned. -/
theorem curvature_reverse_invariant (l : List Pt) :
    calculate_curvature (some l.reverse) = calculate_curvature (some l) := by
  show (if l.reverse.length < 3 then (0 : ℝ) else totalTurn l.reverse) =
    (if l.length < 3 then (0 : ℝ) else totalTurn l)
  rw [List.length_reverse, totalTurn_reverse]

/-- C6: `calculate_curvature` always returns a non-negative real number;
it returns 0 for an absent geometry and for fewer than 3 points; a
triple whose difference vector has zero magnitude contributes 0 (is
skipped); and the total is the sum of the per-triple angle terms. -/
theorem curvature_contract :
    (∀ g : Option (List Pt), 0 ≤ calculate_curvature g)
    ∧ calculate_curvature none = 0
    ∧ (∀ l : List Pt, l.length < 3 → calculate_curvature (some l) = 0)
    ∧ (∀ p1 p2 p3 : Pt, normP (vsub p2 p1) = 0 ∨ normP (vsub p3 p2) = 0 →
        angleDeg p1 p2 p3 = 0)
    ∧ (∀ (p1 p2 p3 : Pt) (rest : List Pt),
        totalTurn (p1 :: p2 :: p3 :: rest) =
          angleDeg p1 p2 p3 + totalTurn (p2 :: p3 :: rest)) := by
  refine ⟨calculate_curvature_nonneg, rfl, ?_, ?_, fun p1 p2 p3 rest => rfl⟩
  · intro l h
    show (if l.length < 3 then (0 : ℝ) else totalTurn l) = 0
    rw [if_pos h]
  · intro p1 p2 p3 h
    unfold angleDeg
    rw [if_neg]
    intro hc
    rcases h with h | h
    · exact absurd h (ne_of_gt hc.1)
    · exact absurd h (ne_of_gt hc.2)

/-- Closed instance of `curvature_contract`: a two-point polyline has
curvature 0, and a degenerate triple (repeated point) contributes 0. -/
theorem curvature_contract_witness :
    (([((0 : ℝ), (0 : ℝ)), ((1 : ℝ), (1 : ℝ))] : List Pt).length < 3
      ∧ calculate_curvature (some [((0 : ℝ), (0 : ℝ)), ((1 : ℝ), (1 : ℝ))]) = 0)
    ∧ ((normP (vsub ((0 : ℝ), (0 : ℝ)) ((0 : ℝ), (0 : ℝ))) = 0
          ∨ normP (vsub ((1 : ℝ), (1 : ℝ)) ((0 : ℝ), (0 : ℝ))) = 0)
        ∧ angleDeg ((0 : ℝ), (0 : ℝ)) ((0 : ℝ), (0 : ℝ)) ((1 : ℝ), (1 : ℝ)) = 0) := by
  have h1 : ([((0 : ℝ), (0 : ℝ)), ((1 : ℝ), (1 : ℝ))] : List Pt).length < 3 := by simp
  have h2 : normP (vsub ((0 : ℝ), (0 : ℝ)) ((0 : ℝ), (0 : ℝ))) = 0
      ∨ normP (vsub ((1 : ℝ), (1 : ℝ)) ((0 : ℝ), (0 : ℝ))) = 0 := by
    left
    simp [normP, vsub]
  exact ⟨⟨h1, curvature_contract.2.2.1 _ h1⟩,
    ⟨h2, curvature_contract.2.2.2.1 _ _ _ h2⟩⟩

/-- C4: the tier and color mapping uses strict comparisons: score > 50
gives High with #E11B23, else score > 20 gives Moderate with #F5A623,
else Low with #20BD5F; in particular 20 maps to Low, 21 to Moderate, 50
to Moderate and 51 to High. -/
theorem riskLevel_thresholds :
    (∀ s : ℕ, 50 < s → riskLevel s = ("High", "#E11B23"))
    ∧ (∀ s : ℕ, 20 < s → s ≤ 50 → riskLevel s = ("Moderate", "#F5A623"))
    ∧ (∀ s : ℕ, s ≤ 20 → riskLevel s = ("Low", "#20BD5F"))
    ∧ riskLevel 20 = ("Low", "#20BD5F")
    ∧ riskLevel 21 = ("Moderate", "#F5A623")
    ∧ riskLevel 50 = ("Moderate", "#F5A623")
    ∧ riskLevel 51 = ("High", "#E11B23") := by
  refine ⟨?_, ?_, ?_, by decide, by decide, by decide, by decide⟩
  · intro s h
    unfold riskLevel
    rw [if_pos h]
  · intro s h1 h2
    unfold riskLevel
    rw [if_neg (by omega), if_pos h1]
  · intro s h
    unfold riskLevel
    rw [if_neg (by omega), if_neg (by omega)]

/-- Closed instances of `riskLevel_thresholds` at the boundary scores
51, 21 and 20. -/
theorem riskLevel_thresholds_witness :
    (50 < 51 ∧ riskLevel 51 = ("High", "#E11B23"))
    ∧ (20 < 21 ∧ 21 ≤ 50 ∧ riskLevel 21 = ("Moderate", "#F5A623"))
    ∧ (20 ≤ 20 ∧ riskLevel 20 = ("Low", "#20BD5F")) :=
  ⟨⟨by decide, riskLevel_thresholds.1 51 (by decide)⟩,
    ⟨by decide, by decide, riskLevel_thresholds.2.1 21 (by decide) (by decide)⟩,
    ⟨by decide, riskLevel_thresholds.2.2.1 20 (by decide)⟩⟩

theorem curveContrib_cases (g : Option (List Pt)) :
    curveContrib g = (0, []) ∨ curveContrib g = (30, ["Sharp Curve"])
    ∨ curveContrib g = (10, ["Winding Road"]) := by
  unfold curveContrib
  split_ifs <;> simp

theorem lanesContrib_cases (lanes : Option StrOrList) :
    lanesContrib lanes = (0, []) ∨ lanesContrib lanes = (20, ["Narrow Road"]) := by
  cases h : parseIntStr (firstTag (lanes.getD (.single "2"))) with
  | none => simp [lanesContrib, h]
  | some n =>
    simp only [lanesContrib, h]
    split_ifs <;> simp

theorem highwayContrib_cases (hw : Option StrOrList) :
    highwayContrib hw = (0, []) ∨ highwayContrib hw = (10, ["High Speed Zone"])
    ∨ highwayContrib hw = (15, ["Poor Lighting"]) := by
  simp only [highwayContrib]
  split_ifs <;> simp

theorem cvContrib_cases (cv : ℕ) :
    cvContrib cv = (0, []) ∨ cvContrib cv = (cv, ["Bad Visibility"]) := by
  unfold cvContrib
  split_ifs <;> simp

theorem classifyEdge_risk (e : EdgeData) (cv : ℕ) :
    (classifyEdge e cv).risk = (curveContrib e.geometry).1 + (lanesContrib e.lanes).1 +
      (highwayContrib e.highway).1 + (cvContrib cv).1 := rfl

theorem classifyEdge_reasons (e : EdgeData) (cv : ℕ) :
    (classifyEdge e cv).reasons = (curveContrib e.geometry).2 ++ (lanesContrib e.lanes).2 ++
      (highwayContrib e.highway).2 ++ (cvContrib cv).2 := rfl

theorem classifyEdge_tier (e : EdgeData) (cv : ℕ) :
    (classifyEdge e cv).tier = (riskLevel ((classifyEdge e cv).risk)).1 := rfl

theorem riskLevel_high_iff (s : ℕ) : (riskLevel s).1 = "High" ↔ 50 < s := by
  unfold riskLevel
  split_ifs with h1 h2
  · simpa using h1
  · constructor
    · intro hx; exact absurd hx (by decide)
    · intro hx; exact absurd hx h1
  · constructor
    · intro hx; exact absurd hx (by decide)
    · intro hx; exact absurd hx h1

theorem curveContrib_none : curveContrib none = (0, []) := by
  unfold curveContrib
  rw [show calculate_curvature none = 0 from rfl]
  rw [if_neg (by norm_num), if_neg (by norm_num)]

/-- C7: the visibility estimator is total with values in {0, 10, 20}:
any absent, unreadable or library-failure outcome returns 0, and a
successful read returns 20 when the edge density exceeds 5, 10 when it
exceeds 2, and 0 otherwise. -/
theorem analyze_image_cv_contract :
    (∀ src : ImageSource, analyze_image_cv src = 0 ∨ analyze_image_cv src = 10 ∨
      analyze_image_cv src = 20)
    ∧ analyze_image_cv .absent = 0
    ∧ analyze_image_cv .unreadable = 0
    ∧ analyze_image_cv .noLibrary = 0
    ∧ (∀ nz sz : ℕ,
        (edgeDensity nz sz > 5 → analyze_image_cv (.loaded nz sz) = 20)
        ∧ (edgeDensity nz sz > 2 → edgeDensity nz sz ≤ 5 →
            analyze_image_cv (.loaded nz sz) = 10)
        ∧ (edgeDensity nz sz ≤ 2 → analyze_image_cv (.loaded nz sz) = 0)) := by
  refine ⟨?_, rfl, rfl, rfl, ?_⟩
  · intro src
    match src with
    | .absent => exact Or.inl rfl
    | .unreadable => exact Or.inl rfl
    | .noLibrary => exact Or.inl rfl
    | .loaded nz sz =>
      by_cases h5 : edgeDensity nz sz > 5
      · right; right
        show (if edgeDensity nz sz > 5 then 20
          else if edgeDensity nz sz > 2 then 10 else 0) = 20
        rw [if_pos h5]
      · by_cases h2 : edgeDensity nz sz > 2
        · right; left
          show (if edgeDensity nz sz > 5 then 20
            else if edgeDensity nz sz > 2 then 10 else 0) = 10
          rw [if_neg h5, if_pos h2]
        · left
          show (if edgeDensity nz sz > 5 then 20
            else if edgeDensity nz sz > 2 then 10 else 0) = 0
          rw [if_neg h5, if_neg h2]
  · intro nz sz
    refine ⟨fun h => ?_, fun h1 h2 => ?_, fun h => ?_⟩
    · show (if edgeDensity nz sz > 5 then 20
        else if edgeDensity nz sz > 2 then 10 else 0) = 20
      rw [if_pos h]
    · show (if edgeDensity nz sz > 5 then 20
        else if edgeDensity nz sz > 2 then 10 else 0) = 10
      rw [if_neg (not_lt.mpr h2), if_pos h1]
    · show (if edgeDensity nz sz > 5 then 20
        else if edgeDensity nz sz > 2 then 10 else 0) = 0
      rw [if_neg (by intro hc; linarith), if_neg (not_lt.mpr h)]

/-- Closed instance of `analyze_image_cv_contract`: an image with 10
edge pixels out of 100 has density 10 and penalty 20, and one with 1
edge pixel out of 100 has density 1 and penalty 0. -/
theorem analyze_image_cv_contract_witness :
    (edgeDensity 10 100 > 5 ∧ analyze_image_cv (.loaded 10 100) = 20)
    ∧ (edgeDensity 1 100 ≤ 2 ∧ analyze_image_cv (.loaded 1 100) = 0) :=
  ⟨⟨by norm_num [edgeDensity],
    (analyze_image_cv_contract.2.2.2.2 10 100).1 (by norm_num [edgeDensity])⟩,
    ⟨by norm_num [edgeDensity],
    (analyze_image_cv_contract.2.2.2.2 1 100).2.2 (by norm_num [edgeDensity])⟩⟩

theorem riskLevel_fst_cases (s : ℕ) :
    (riskLevel s).1 = "High" ∨ (riskLevel s).1 = "Moderate" ∨ (riskLevel s).1 = "Low" := by
  unfold riskLevel
  split_ifs <;> simp

theorem bumpTier_eq (t : String) (st : String → ℕ) (k : String) :
    bumpTier t st k = if k = t then st k + 1 else st k := rfl

theorem bumpTier_sum (t : String) (st : String → ℕ)
    (h : t = "High" ∨ t = "Moderate" ∨ t = "Low") :
    bumpTier t st "High" + bumpTier t st "Moderate" + bumpTier t st "Low" =
      st "High" + st "Moderate" + st "Low" + 1 := by
  rcases h with h | h | h
  · subst h
    rw [bumpTier_eq, bumpTier_eq, bumpTier_eq,
      if_pos (rfl : ("High" : String) = "High"),
      if_neg (by decide : ¬(("Moderate" : String) = "High")),
      if_neg (by decide : ¬(("Low" : String) = "High"))]
    omega
  · subst h
    rw [bumpTier_eq, bumpTier_eq, bumpTier_eq,
      if_pos (rfl : ("Moderate" : String) = "Moderate"),
      if_neg (by decide : ¬(("High" : String) = "Moderate")),
      if_neg (by decide : ¬(("Low" : String) = "Moderate"))]
    omega
  · subst h
    rw [bumpTier_eq, bumpTier_eq, bumpTier_eq,
      if_pos (rfl : ("Low" : String) = "Low"),
      if_neg (by decide : ¬(("High" : String) = "Low")),
      if_neg (by decide : ¬(("Moderate" : String) = "Low"))]
    omega

theorem hazardInc_outside (hz : String → ℕ) (r k : String) (hk : k ∉ hazardKeys) :
    hazardInc hz r k = hz k := by
  unfold hazardInc
  split_ifs with hr
  · show (if k = r then hz k + 1 else hz k) = hz k
    rw [if_neg]
    intro h
    exact hk (h ▸ hr)
  · rfl

theorem incHazards_outside (rs : List String) (hz : String → ℕ) (k : String)
    (hk : k ∉ hazardKeys) : incHazards rs hz k = hz k := by
  induction rs generalizing hz with
  | nil => rfl
  | cons r rs ih =>
    show incHazards rs (hazardInc hz r) k = hz k
    rw [ih (hazardInc hz r), hazardInc_outside hz r k hk]

theorem stepRoute_stats (cv : ℕ) (acc : RouteSummary) (e : EdgeInput) :
    (stepRoute cv acc e).stats = bumpTier (classifyEdge e.data cv).tier acc.stats := rfl

theorem stepRoute_hazards (cv : ℕ) (acc : RouteSummary) (e : EdgeInput) :
    (stepRoute cv acc e).hazards = incHazards (classifyEdge e.data cv).reasons acc.hazards := rfl

theorem stepRoute_seg_len (cv : ℕ) (acc : RouteSummary) (e : EdgeInput) :
    (stepRoute cv acc e).segments.length = acc.segments.length + 1 := by
  show (acc.segments ++ [_]).length = acc.segments.length + 1
  simp

theorem routeFold_cons (cv : ℕ) (e : EdgeInput) (rest : List EdgeInput)
    (acc : RouteSummary) :
    routeFold cv (e :: rest) acc = routeFold cv rest (stepRoute cv acc e) := rfl

theorem routeFold_seg_len (cv : ℕ) (edges : List EdgeInput) (acc : RouteSummary) :
    (routeFold cv edges acc).segments.length = acc.segments.length + edges.length := by
  induction edges generalizing acc with
  | nil => rfl
  | cons e rest ih =>
    rw [routeFold_cons, ih (stepRoute cv acc e), stepRoute_seg_len]
    simp
    omega

theorem routeFold_stats_sum (cv : ℕ) (edges : List EdgeInput) (acc : RouteSummary) :
    (routeFold cv edges acc).stats "High" + (routeFold cv edges acc).stats "Moderate" +
      (routeFold cv edges acc).stats "Low" =
      acc.stats "High" + acc.stats "Moderate" + acc.stats "Low" + edges.length := by
  induction edges generalizing acc with
  | nil => rfl
  | cons e rest ih =>
    rw [routeFold_cons, ih (stepRoute cv acc e), stepRoute_stats]
    rw [bumpTier_sum (classifyEdge e.data cv).tier acc.stats
      (by rw [classifyEdge_tier]; exact riskLevel_fst_cases _)]
    simp
    omega

theorem routeFold_hazards_outside (cv : ℕ) (edges : List EdgeInput)
    (acc : RouteSummary) (k : String) (hk : k ∉ hazardKeys) :
    (routeFold cv edges acc).hazards k = acc.hazards k := by
  induction edges generalizing acc with
  | nil => rfl
  | cons e rest ih =>
    rw [routeFold_cons, ih (stepRoute cv acc e), stepRoute_hazards,
      incHazards_outside _ _ _ hk]

/-- C5: for every segmented route, the three tier counts sum to the
number of segments, and hazard counts only ever accumulate at the fixed
eight hazard keys (a non-key, in particular "Safe Route", stays at its
initial 0). -/
theorem route_summary_invariants :
    ∀ (edges : List EdgeInput) (cv : ℕ),
      (segmentRoute edges cv).stats "High" + (segmentRoute edges cv).stats "Moderate" +
        (segmentRoute edges cv).stats "Low" = (segmentRoute edges cv).segments.length
      ∧ (∀ k : String, k ∉ hazardKeys → (segmentRoute edges cv).hazards k = 0)
      ∧ "Safe Route" ∉ hazardKeys := by
  intro edges cv
  refine ⟨?_, ?_, by decide⟩
  · unfold segmentRoute
    rw [routeFold_stats_sum, routeFold_seg_len]
    simp
  · intro k hk
    unfold segmentRoute
    rw [routeFold_hazards_outside _ _ _ _ hk]

/-- Closed instance of `route_summary_invariants`: on the empty route the
"Safe Route" hazard count is 0 (it is not a hazard key). -/
theorem route_summary_invariants_witness :
    "Safe Route" ∉ hazardKeys ∧ (segmentRoute [] 0).hazards "Safe Route" = 0 :=
  ⟨by decide, (route_summary_invariants [] 0).2.1 "Safe Route" (by decide)⟩

/-- C10: with the visibility penalty bounded by 20 (its estimator range),
each factor of the implemented classifier contributes at most 30
(curvature), 20 (lanes), 15 (road class) and 20 (visibility), the total
risk score is at most 85, and a High tier requires at least three
contributing factors (reasons). -/
theorem risk_score_bounds :
    ∀ (e : EdgeData) (cv : ℕ), cv ≤ 20 →
      (curveContrib e.geometry).1 ≤ 30
      ∧ (lanesContrib e.lanes).1 ≤ 20
      ∧ (highwayContrib e.highway).1 ≤ 15
      ∧ (cvContrib cv).1 ≤ 20
      ∧ (classifyEdge e cv).risk ≤ 85
      ∧ ((classifyEdge e cv).tier = "High" → 3 ≤ (classifyEdge e cv).reasons.length) := by
  intro e cv hcv
  have hc1 : (curveContrib e.geometry).1 ≤ 30 * (curveContrib e.geometry).2.length := by
    rcases curveContrib_cases e.geometry with h | h | h <;> rw [h] <;> simp
  have hc2 : (curveContrib e.geometry).2.length ≤ 1 := by
    rcases curveContrib_cases e.geometry with h | h | h <;> rw [h] <;> simp
  have hl1 : (lanesContrib e.lanes).1 ≤ 20 * (lanesContrib e.lanes).2.length := by
    rcases lanesContrib_cases e.lanes with h | h <;> rw [h] <;> simp
  have hl2 : (lanesContrib e.lanes).2.length ≤ 1 := by
    rcases lanesContrib_cases e.lanes with h | h <;> rw [h] <;> simp
  have hh1 : (highwayContrib e.highway).1 ≤ 15 * (highwayContrib e.highway).2.length := by
    rcases highwayContrib_cases e.highway with h | h | h <;> rw [h] <;> simp
  have hh2 : (highwayContrib e.highway).2.length ≤ 1 := by
    rcases highwayContrib_cases e.highway with h | h | h <;> rw [h] <;> simp
  have hv1 : (cvContrib cv).1 ≤ 20 * (cvContrib cv).2.length := by
    rcases cvContrib_cases cv with h | h <;> rw [h] <;> simp
    omega
  have hv2 : (cvContrib cv).2.length ≤ 1 := by
    rcases cvContrib_cases cv with h | h <;> rw [h] <;> simp
  have hrisk := classifyEdge_risk e cv
  have hlen : (classifyEdge e cv).reasons.length =
      (curveContrib e.geometry).2.length + (lanesContrib e.lanes).2.length +
      (highwayContrib e.highway).2.length + (cvContrib cv).2.length := by
    rw [classifyEdge_reasons]
    simp [List.length_append]
    omega
  refine ⟨by omega, by omega, by omega, by omega, by omega, ?_⟩
  intro ht
  rw [classifyEdge_tier, riskLevel_high_iff] at ht
  omega

/-- Closed instance of `risk_score_bounds` at the example edge and the
maximal visibility penalty 20. -/
theorem risk_score_bounds_witness :
    (20 : ℕ) ≤ 20
    ∧ ((curveContrib exampleEdge.geometry).1 ≤ 30
      ∧ (lanesContrib exampleEdge.lanes).1 ≤ 20
      ∧ (highwayContrib exampleEdge.highway).1 ≤ 15
      ∧ (cvContrib 20).1 ≤ 20
      ∧ (classifyEdge exampleEdge 20).risk ≤ 85
      ∧ ((classifyEdge exampleEdge 20).tier = "High" →
          3 ≤ (classifyEdge exampleEdge 20).reasons.length)) :=
  ⟨by decide, risk_score_bounds exampleEdge 20 (by decide)⟩

theorem mem_curveContrib (g : Option (List Pt)) (r : String)
    (h : r ∈ (curveContrib g).2) : r = "Sharp Curve" ∨ r = "Winding Road" := by
  rcases curveContrib_cases g with hc | hc | hc <;> rw [hc] at h
  · simp at h
  · simp at h
    exact Or.inl h
  · simp at h
    exact Or.inr h

theorem mem_highwayContrib (hw : Option StrOrList) (r : String)
    (h : r ∈ (highwayContrib hw).2) : r = "High Speed Zone" ∨ r = "Poor Lighting" := by
  rcases highwayContrib_cases hw with hc | hc | hc <;> rw [hc] at h
  · simp at h
  · simp at h
    exact Or.inl h
  · simp at h
    exact Or.inr h

theorem mem_cvContrib (cv : ℕ) (r : String)
    (h : r ∈ (cvContrib cv).2) : r = "Bad Visibility" := by
  rcases cvContrib_cases cv with hc | hc <;> rw [hc] at h
  · simp at h
  · simpa using h

theorem lanesContribFull_cases (lanes : Option StrOrList) (d1 : ℚ) :
    lanesContribFull lanes d1 = (0, [])
    ∨ lanesContribFull lanes d1 =
        (20, "Narrow Road" :: (if d1 > 7/10 then ["Traffic Congestion"] else [])) := by
  cases h : parseIntStr (firstTag (lanes.getD (.single "2"))) with
  | none => simp [lanesContribFull, h]
  | some n =>
    simp only [lanesContribFull, h]
    split_ifs <;> simp

theorem mem_lanesContribFull (lanes : Option StrOrList) (d1 : ℚ) (r : String)
    (h : r ∈ (lanesContribFull lanes d1).2) :
    r = "Narrow Road" ∨ r = "Traffic Congestion" := by
  rcases lanesContribFull_cases lanes d1 with hc | hc <;> rw [hc] at h
  · simp at h
  · rcases List.mem_cons.mp h with h1 | h1
    · exact Or.inl h1
    · by_cases hd : d1 > 7/10
      · rw [if_pos hd] at h1
        simp at h1
        exact Or.inr h1
      · rw [if_neg hd] at h1
        simp at h1

theorem blackspotContrib_pos (s : ℕ) (d2 : ℚ) (hs : s > 20) (hd : d2 > 4/5) :
    blackspotContrib s d2 = (40, ["Known Blackspot"]) := by
  unfold blackspotContrib
  rw [if_pos hs, if_pos hd]

theorem mem_blackspotContrib (s : ℕ) (d2 : ℚ) (r : String)
    (h : r ∈ (blackspotContrib s d2).2) :
    r = "Known Blackspot" ∧ s > 20 ∧ d2 > 4/5 := by
  unfold blackspotContrib at h
  by_cases hs : s > 20
  · rw [if_pos hs] at h
    by_cases hd : d2 > 4/5
    · rw [if_pos hd] at h
      simp at h
      exact ⟨h, hs, hd⟩
    · rw [if_neg hd] at h
      simp at h
  · rw [if_neg hs] at h
    simp at h

theorem classifyEdgeFull_reasons_cases (e : EdgeData) (cv : ℕ) (d1 d2 : ℚ) :
    (classifyEdgeFull e cv d1 d2).reasons = fullReasons e cv d1 d2
    ∨ ((classifyEdgeFull e cv d1 d2).reasons = ["Safe Route"]
        ∧ fullReasons e cv d1 d2 = []) := by
  unfold classifyEdgeFull
  split_ifs with h
  · exact Or.inr ⟨rfl, h.2⟩
  · exact Or.inl rfl

theorem classifyEdgeFull_risk (e : EdgeData) (cv : ℕ) (d1 d2 : ℚ) :
    (classifyEdgeFull e cv d1 d2).risk = fullScore e cv d1 d2 := by
  unfold classifyEdgeFull
  split_ifs <;> rfl

theorem classifyEdgeFull_tier (e : EdgeData) (cv : ℕ) (d1 d2 : ℚ) :
    (classifyEdgeFull e cv d1 d2).tier = (riskLevel (fullScore e cv d1 d2)).1 := by
  unfold classifyEdgeFull
  split_ifs <;> rfl

theorem blackspot_mem_fullReasons (e : EdgeData) (cv : ℕ) (d1 d2 : ℚ) :
    "Known Blackspot" ∈ fullReasons e cv d1 d2 ↔
      scoreAfterLanes e d1 > 20 ∧ d2 > 4/5 := by
  constructor
  · intro h
    unfold fullReasons at h
    simp only [List.mem_append] at h
    rcases h with ((((h1 | h1) | h1) | h1) | h1)
    · rcases mem_curveContrib _ _ h1 with h5 | h5 <;> exact absurd h5 (by decide)
    · rcases mem_lanesContribFull _ _ _ h1 with h5 | h5 <;> exact absurd h5 (by decide)
    · have h5 := mem_blackspotContrib _ _ _ h1
      exact ⟨h5.2.1, h5.2.2⟩
    · rcases mem_highwayContrib _ _ h1 with h5 | h5 <;> exact absurd h5 (by decide)
    · exact absurd (mem_cvContrib _ _ h1) (by decide)
  · intro h
    unfold fullReasons
    rw [blackspotContrib_pos _ _ h.1 h.2]
    simp

theorem congestion_mem_fullReasons (e : EdgeData) (cv : ℕ) (d1 d2 : ℚ)
    (h : "Traffic Congestion" ∈ fullReasons e cv d1 d2) :
    d1 > 7/10 ∧ ∃ m : ℤ,
      parseIntStr (firstTag (e.lanes.getD (.single "2"))) = some m ∧ m ≤ 1 := by
  unfold fullReasons at h
  simp only [List.mem_append] at h
  rcases h with ((((h1 | h1) | h1) | h1) | h1)
  · rcases mem_curveContrib _ _ h1 with h5 | h5 <;> exact absurd h5 (by decide)
  · cases hp : parseIntStr (firstTag (e.lanes.getD (.single "2"))) with
    | none => rw [show lanesContribFull e.lanes d1 = (0, []) from by
        simp [lanesContribFull, hp]] at h1; simp at h1
    | some n =>
      by_cases hn : n ≤ 1
      · by_cases hd : d1 > 7/10
        · exact ⟨hd, n, rfl, hn⟩
        · rw [show lanesContribFull e.lanes d1 = (20, ["Narrow Road"]) from by
            simp only [lanesContribFull, hp]
            rw [if_pos hn, if_neg hd]] at h1
          simp at h1
      · rw [show lanesContribFull e.lanes d1 = (0, []) from by
          simp only [lanesContribFull, hp]
          rw [if_neg hn]] at h1
        simp at h1
  · exact absurd (mem_blackspotContrib _ _ _ h1).1 (by decide)
  · rcases mem_highwayContrib _ _ h1 with h5 | h5 <;> exact absurd h5 (by decide)
  · exact absurd (mem_cvContrib _ _ h1) (by decide)

theorem totalTurn_rightAngle : totalTurn rightAngle = 90 := by
  have h1 : totalTurn rightAngle =
      angleDeg (0, 0) (1, 0) (1, 1) + totalTurn [(1, 0), (1, 1)] := rfl
  rw [h1, totalTurn_short [(1, 0), (1, 1)] (by simp)]
  have hv1 : vsub ((1 : ℝ), (0 : ℝ)) ((0 : ℝ), (0 : ℝ)) = (1, 0) := by
    simp [vsub]
  have hv2 : vsub ((1 : ℝ), (1 : ℝ)) ((1 : ℝ), (0 : ℝ)) = (0, 1) := by
    simp [vsub]
  unfold angleDeg
  rw [hv1, hv2]
  have hn1 : normP ((1 : ℝ), (0 : ℝ)) = 1 := by
    unfold normP
    rw [show ((1 : ℝ) ^ 2 + (0 : ℝ) ^ 2) = 1 by norm_num, Real.sqrt_one]
  have hn2 : normP ((0 : ℝ), (1 : ℝ)) = 1 := by
    unfold normP
    rw [show ((0 : ℝ) ^ 2 + (1 : ℝ) ^ 2) = 1 by norm_num, Real.sqrt_one]
  have hd : dotP ((1 : ℝ), (0 : ℝ)) ((0 : ℝ), (1 : ℝ)) = 0 := by
    unfold dotP
    norm_num
  rw [hn1, hn2, hd]
  rw [if_pos ⟨by norm_num, by norm_num⟩]
  have hc : clip (0 / (1 * 1)) = 0 := by
    unfold clip
    norm_num
  rw [hc, Real.arccos_zero]
  have hpi := Real.pi_ne_zero
  field_simp
  ring

theorem curvature_rightAngle : calculate_curvature (some rightAngle) = 90 := by
  show (if rightAngle.length < 3 then (0 : ℝ) else totalTurn rightAngle) = 90
  rw [if_neg (by simp [rightAngle]), totalTurn_rightAngle]

theorem curveContrib_rightAngle :
    curveContrib (some rightAngle) = (30, ["Sharp Curve"]) := by
  unfold curveContrib
  rw [curvature_rightAngle, if_pos (by norm_num : (90 : ℝ) > 45)]

theorem lanesContribFull_one_zero :
    lanesContribFull (some (.single "1")) 0 = (20, ["Narrow Road"]) := by
  simp only [lanesContribFull,
    show parseIntStr (firstTag ((some (StrOrList.single "1")).getD (.single "2"))) =
      some 1 from by decide]
  norm_num

theorem scoreAfterLanes_blackEdge : scoreAfterLanes blackEdge 0 = 50 := by
  unfold scoreAfterLanes
  rw [show blackEdge.geometry = some rightAngle from rfl,
    show blackEdge.lanes = some (.single "1") from rfl,
    curveContrib_rightAngle, lanesContribFull_one_zero]
  rfl

/-- C1: in the full classifier variant, a classification that yields
tier Low with no accumulated reasons gets exactly the singleton
["Safe Route"] as its reason list, and "Safe Route" is never counted in
the hazards mapping (it is not a hazard key, so its increment is the
identity). -/
theorem safe_route_placeholder :
    ∀ (e : EdgeData) (cv : ℕ) (d1 d2 : ℚ),
      ((classifyEdgeFull e cv d1 d2).tier = "Low" → fullReasons e cv d1 d2 = [] →
        (classifyEdgeFull e cv d1 d2).reasons = ["Safe Route"])
      ∧ (∀ hz : String → ℕ, hazardInc hz "Safe Route" = hz)
      ∧ "Safe Route" ∉ hazardKeys := by
  intro e cv d1 d2
  refine ⟨?_, ?_, by decide⟩
  · intro ht hr
    have ht' : (riskLevel (fullScore e cv d1 d2)).1 = "Low" := by
      rw [← classifyEdgeFull_tier]
      exact ht
    unfold classifyEdgeFull
    rw [if_pos ⟨ht', hr⟩]
  · intro hz
    unfold hazardInc
    rw [if_neg (by decide : ¬("Safe Route" ∈ hazardKeys))]

/-- Closed instance of `safe_route_placeholder`: the plain residential
edge classifies Low with no accumulated reasons and its reason list
becomes ["Safe Route"]. -/
theorem safe_route_placeholder_witness :
    (classifyEdgeFull safeEdge 0 0 0).tier = "Low"
    ∧ fullReasons safeEdge 0 0 0 = []
    ∧ (classifyEdgeFull safeEdge 0 0 0).reasons = ["Safe Route"] := by
  have hg : safeEdge.geometry = none := rfl
  have hs : fullScore safeEdge 0 0 0 = 0 := by
    simp only [fullScore, scoreAfterLanes, hg, curveContrib_none]
    decide
  have hA : (classifyEdgeFull safeEdge 0 0 0).tier = "Low" := by
    rw [classifyEdgeFull_tier, hs]
    decide
  have hB : fullReasons safeEdge 0 0 0 = [] := by
    simp only [fullReasons, scoreAfterLanes, hg, curveContrib_none]
    decide
  exact ⟨hA, hB, (safe_route_placeholder safeEdge 0 0 0).1 hA hB⟩

/-- C2: in the full classifier variant, when the running score after the
curvature and lane steps exceeds 20 and the blackspot draw exceeds 0.8,
the score gains exactly 40 and "Known Blackspot" is in the reasons; and
"Known Blackspot" appears under no other condition. -/
theorem blackspot_rule :
    ∀ (e : EdgeData) (cv : ℕ) (d1 d2 : ℚ),
      (scoreAfterLanes e d1 > 20 → d2 > 4/5 →
        fullScore e cv d1 d2 = scoreAfterLanes e d1 + 40 +
          (highwayContrib e.highway).1 + (cvContrib cv).1
        ∧ "Known Blackspot" ∈ (classifyEdgeFull e cv d1 d2).reasons)
      ∧ ("Known Blackspot" ∈ (classifyEdgeFull e cv d1 d2).reasons →
          scoreAfterLanes e d1 > 20 ∧ d2 > 4/5)
      ∧ (classifyEdgeFull e cv d1 d2).risk = fullScore e cv d1 d2 := by
  intro e cv d1 d2
  refine ⟨fun hs hd => ⟨?_, ?_⟩, fun h => ?_, classifyEdgeFull_risk e cv d1 d2⟩
  · unfold fullScore
    rw [blackspotContrib_pos _ _ hs hd]
  · have hmem : "Known Blackspot" ∈ fullReasons e cv d1 d2 :=
      (blackspot_mem_fullReasons e cv d1 d2).mpr ⟨hs, hd⟩
    rcases classifyEdgeFull_reasons_cases e cv d1 d2 with hc | hc
    · rw [hc]
      exact hmem
    · rw [hc.2] at hmem
      simp at hmem
  · rcases classifyEdgeFull_reasons_cases e cv d1 d2 with hc | hc
    · rw [hc] at h
      exact (blackspot_mem_fullReasons e cv d1 d2).mp h
    · rw [hc.1] at h
      simp at h

/-- Closed instance of `blackspot_rule`: the sharp-curve narrow edge has
running score 50 > 20 and a draw of 0.9 > 0.8 triggers the blackspot. -/
theorem blackspot_rule_witness :
    scoreAfterLanes blackEdge 0 > 20 ∧ (9/10 : ℚ) > 4/5
    ∧ (fullScore blackEdge 0 0 (9/10) = scoreAfterLanes blackEdge 0 + 40 +
        (highwayContrib blackEdge.highway).1 + (cvContrib 0).1
      ∧ "Known Blackspot" ∈ (classifyEdgeFull blackEdge 0 0 (9/10)).reasons) := by
  have hs : scoreAfterLanes blackEdge 0 > 20 := by
    rw [scoreAfterLanes_blackEdge]
    norm_num
  have hd : (9/10 : ℚ) > 4/5 := by norm_num
  exact ⟨hs, hd, (blackspot_rule blackEdge 0 0 (9/10)).1 hs hd⟩

/-- C3: in the full classifier variant, an edge whose parsed lane count
is at most 1 gets +20 with "Narrow Road", and the congestion draw
appends "Traffic Congestion" exactly when it exceeds 0.7, without
changing the numeric lane score (it stays 20); and "Traffic Congestion"
appears under no other condition. -/
theorem congestion_rule :
    ∀ (e : EdgeData) (cv : ℕ) (d1 d2 : ℚ) (n : ℤ),
      (parseIntStr (firstTag (e.lanes.getD (.single "2"))) = some n → n ≤ 1 →
        lanesContribFull e.lanes d1 =
          (20, "Narrow Road" :: (if d1 > 7/10 then ["Traffic Congestion"] else []))
        ∧ (d1 > 7/10 → "Traffic Congestion" ∈ (classifyEdgeFull e cv d1 d2).reasons))
      ∧ ("Traffic Congestion" ∈ (classifyEdgeFull e cv d1 d2).reasons →
          d1 > 7/10 ∧ ∃ m : ℤ,
            parseIntStr (firstTag (e.lanes.getD (.single "2"))) = some m ∧ m ≤ 1) := by
  intro e cv d1 d2 n
  constructor
  · intro hp hn
    have hl : lanesContribFull e.lanes d1 =
        (20, "Narrow Road" :: (if d1 > 7/10 then ["Traffic Congestion"] else [])) := by
      unfold lanesContribFull
      rw [hp]
      show (if n ≤ 1 then
          ((20 : ℕ), "Narrow Road" :: (if d1 > 7/10 then ["Traffic Congestion"] else []))
        else (0, [])) = _
      rw [if_pos hn]
    refine ⟨hl, fun hd => ?_⟩
    have hmem : "Traffic Congestion" ∈ fullReasons e cv d1 d2 := by
      unfold fullReasons
      rw [hl, if_pos hd]
      simp
    rcases classifyEdgeFull_reasons_cases e cv d1 d2 with hcase | hcase
    · rw [hcase]
      exact hmem
    · rw [hcase.2] at hmem
      simp at hmem
  · intro h
    rcases classifyEdgeFull_reasons_cases e cv d1 d2 with hcase | hcase
    · rw [hcase] at h
      exact congestion_mem_fullReasons e cv d1 d2 h
    · rw [hcase.1] at h
      simp at h

/-- Closed instance of `congestion_rule`: the narrow edge parses lanes 1
and a congestion draw of 0.9 > 0.7 appends "Traffic Congestion". -/
theorem congestion_rule_witness :
    parseIntStr (firstTag (blackEdge.lanes.getD (.single "2"))) = some 1
    ∧ (1 : ℤ) ≤ 1 ∧ (9/10 : ℚ) > 7/10
    ∧ "Traffic Congestion" ∈ (classifyEdgeFull blackEdge 0 (9/10) 0).reasons := by
  have hp : parseIntStr (firstTag (blackEdge.lanes.getD (.single "2"))) = some 1 := by
    decide
  have hn : (1 : ℤ) ≤ 1 := by decide
  have hd : (9/10 : ℚ) > 7/10 := by norm_num
  exact ⟨hp, hn, hd, ((congestion_rule blackEdge 0 (9/10) 0 1).1 hp hn).2 hd⟩

/-- C8: for the single edge with lanes "1", highway "motorway", no
geometry and visibility penalty 0, with every random draw suppressed
(the src classifier draws none; the full variant gets draws 0), the
result has score 30, tier Moderate, color #F5A623 and reasons exactly
["Narrow Road", "High Speed Zone"] in that order. -/
theorem example_edge_moderate :
    classifyEdge exampleEdge 0 =
      ⟨30, ["Narrow Road", "High Speed Zone"], "Moderate", "#F5A623"⟩
    ∧ classifyEdgeFull exampleEdge 0 0 0 =
      ⟨30, ["Narrow Road", "High Speed Zone"], "Moderate", "#F5A623"⟩ := by
  have hg : exampleEdge.geometry = none := rfl
  have hl : lanesContribFull exampleEdge.lanes 0 = (20, ["Narrow Road"]) := by
    simp only [lanesContribFull,
      show parseIntStr (firstTag (exampleEdge.lanes.getD (.single "2"))) = some 1 from
        by decide]
    norm_num
  constructor
  · simp only [classifyEdge, hg, curveContrib_none]
    decide
  · simp only [classifyEdgeFull, fullScore, fullReasons, scoreAfterLanes, hg,
      curveContrib_none, hl]
    decide

end RouteAdvisor
